import Mathlib

/-!
Verification of the traffic-simulator client core (frontend of
Fridorovich/traffic-simulator) against its natural-language specification.

The development shallowly embeds the relevant source files:

* `src/frontend/src/hooks/useWebSocket.js` — the connection manager hook:
  message filtering (`ws.onmessage`), the reconnect-on-close logic
  (`ws.onclose` / `disconnect`), and the 100 ms step-pacing interval.
* `SimulationCanvas.jsx` — the canvas renderer: destructuring defaults,
  grid-to-surface scaling, vehicle/traffic-light draw operations, and the
  click-to-grid conversion.
* `App.js` — the session orchestrator's `handleStep` fallback logic.
* `services/api.js` — the REST actions used by the fallback.

JavaScript numbers are modelled as rationals (`ℚ`); JSON objects with
optional fields are modelled as structures of `Option`-typed fields
(destructuring defaults become `Option.getD`); the browser's single-threaded
event loop is modelled by explicit state-transition functions applied in
trace order, with queued asynchronous events (WebSocket close events, timer
fires) made explicit in the state.
-/

/-! ### Inbound message handling (`ws.onmessage`, useWebSocket.js lines 31-43)

An inbound WebSocket frame is first passed through `JSON.parse` inside a
`try`/`catch`; a parse failure is caught and logged, and the handler
returns without calling `onMessage`.  A parsed object whose `type` field is
`"ping"` or `"pong"` is discarded; every other parsed object is passed to
`onMessage` exactly once.  We model the parse outcome as `Except Unit WsMsg`
(`.error` = `JSON.parse` threw) since the JSON text itself is external. -/

/-- A parsed inbound message. `type_` models the JSON `type` field
(`none` = field absent, i.e. `undefined` in JS); `step` models the `step`
field of a snapshot payload. -/
structure WsMsg where
  type_ : Option String
  step : Option Nat
deriving DecidableEq, Repr

/-- `ws.onmessage` (useWebSocket.js lines 31-43): result of processing one
inbound frame. `none` means the snapshot handler `onMessage` is not invoked
(parse failure, or ping/pong control traffic); `some d` means `onMessage d`
is invoked exactly once. -/
def onmessageDeliver (raw : Except Unit WsMsg) : Option WsMsg :=
  match raw with
  | .error _ => none
  | .ok d => if d.type_ = some "ping" ∨ d.type_ = some "pong" then none else some d

/-- The sequence of snapshots delivered to the registered handler over a
stream of inbound frames, each frame processed once in order. -/
def deliveries (msgs : List (Except Unit WsMsg)) : List WsMsg :=
  msgs.filterMap onmessageDeliver

/-- The App's held snapshot state after one inbound frame: the `onMessage`
callback (App.js lines 20-24) replaces the held state wholesale with the
delivered message; when nothing is delivered the held state is unchanged. -/
def applyWsMessage (held : Option WsMsg) (raw : Except Unit WsMsg) : Option WsMsg :=
  match onmessageDeliver raw with
  | none => held
  | some d => some d

/-! ### Session orchestrator manual advance (`handleStep`, App.js lines 88-102)

`handleStep` does nothing without a simulation id; with one, if the
WebSocket is connected it calls `sendStep()` (which sends `{type:"step"}`
only when the underlying socket is OPEN, useWebSocket.js lines 71-75);
otherwise it calls `simulationAPI.stepSimulation(simId, 10)` followed by
one `simulationAPI.getSimulationState(simId)` whose result replaces the
held state. -/

/-- One externally visible action taken by `handleStep`. -/
inductive StepAction where
  | wsSend (type_ : String)
  | apiStepSimulation (simId : Nat) (steps : Nat)
  | apiGetState (simId : Nat)
deriving DecidableEq, Repr

/-- `sendStep` (useWebSocket.js lines 71-75): sends `{type:"step"}` only if
the socket exists and its readyState is OPEN. -/
def sendStepAction (wsOpen : Bool) : List StepAction :=
  if wsOpen then [StepAction.wsSend "step"] else []

/-- `handleStep` (App.js lines 88-102), as the list of actions it performs. -/
def handleStep (simId : Option Nat) (isConnected : Bool) (wsOpen : Bool) :
    List StepAction :=
  match simId with
  | none => []
  | some id =>
    if isConnected then sendStepAction wsOpen
    else [StepAction.apiStepSimulation id 10, StepAction.apiGetState id]

/-- Whether an action is a Control Client (REST) call. -/
def isApiCall : StepAction → Bool
  | StepAction.wsSend _ => false
  | StepAction.apiStepSimulation _ _ => true
  | StepAction.apiGetState _ => true

/-- Whether an action is a snapshot fetch. -/
def isGetState : StepAction → Bool
  | StepAction.apiGetState _ => true
  | _ => false

/-- In the disconnected fallback, `setSimulationState(stateResponse.data)`
(App.js line 97) replaces the held snapshot wholesale with the fetch result. -/
def stepFallbackHeld (held : Option WsMsg) (fetched : WsMsg) : Option WsMsg :=
  some fetched

/-! ### Connection lifecycle (`useWebSocket.js`)

The hook keeps three mutable refs (`wsRef`, `reconnectTimeoutRef`,
`stepIntervalRef`) and two state cells (`isConnected`, `error`).  We model
the event-loop behaviour as explicit transition functions on a state record:

* `wsConnectWith sid` — the body of `connect` as captured by a closure whose
  `simId` is `sid` (useWebSocket.js lines 10-69): it returns immediately
  when `sid` is falsy; otherwise it calls `close()` on any current socket
  (whose close event is thereby *queued*, to be delivered later by the
  browser) and installs a fresh socket whose handlers capture `sid`.
* `wsOnOpen` — the `onopen` handler (lines 25-29).
* `wsDeliverClose c` — the browser delivering the queued/spontaneous close
  event of socket `c` to its `onclose` handler (lines 51-66): it clears
  `isConnected`, clears the step interval, and — whenever the captured
  `simId` is truthy — schedules a reconnect `setTimeout(connect, 2000)`
  (overwriting `reconnectTimeoutRef`).  Per the WebSocket standard this
  handler runs for *every* closure of the socket, including one initiated
  by an explicit `close()` call.
* `wsDisconnect` — the `disconnect` callback (lines 96-112): clears the
  reconnect timer and the step interval, then calls `close()` on the
  current socket (queueing its close event) and nulls `wsRef`.
* `wsAdvanceTime` / `wsFireReconnect` — wall-clock progress and the firing
  of a due reconnect timer (which invokes the captured `connect`). -/

/-- One WebSocket object created by `connect`; its handlers close over the
`simId` prop value current when `connect` was built. -/
structure Chan where
  capturedSimId : Option Nat
deriving DecidableEq, Repr

/-- State of the `useWebSocket` hook plus the queued asynchronous events of
the browser event loop. `current` is `wsRef` (an index into `chans`);
`pendingClose` are sockets whose close event is queued but not yet
delivered; `reconnectPending` is `reconnectTimeoutRef` (absolute fire time,
plus the `simId` captured by the scheduled `connect`); `stepActive` is
`stepIntervalRef`; `reconnectFires` counts reconnect-timer fires. -/
structure WSState where
  now : Nat
  simId : Option Nat
  isConnected : Bool
  current : Option Nat
  chans : List Chan
  pendingClose : List Nat
  reconnectPending : Option (Nat × Option Nat)
  stepActive : Bool
  reconnectFires : Nat
deriving DecidableEq, Repr

/-- The reconnect delay hard-coded at useWebSocket.js line 64. -/
def reconnectDelayMs : Nat := 2000

/-- `connect` with closure-captured simId `sid` (useWebSocket.js lines 10-69). -/
def wsConnectWith (sid : Option Nat) (s : WSState) : WSState :=
  match sid with
  | none => s
  | some _ =>
    let s1 :=
      match s.current with
      | some c => { s with pendingClose := s.pendingClose ++ [c] }
      | none => s
    { s1 with chans := s1.chans ++ [⟨sid⟩], current := some s1.chans.length }

/-- `connect` invoked from the current render (captures the current prop). -/
def wsConnect (s : WSState) : WSState := wsConnectWith s.simId s

/-- `ws.onopen` (useWebSocket.js lines 25-29). -/
def wsOnOpen (s : WSState) : WSState := { s with isConnected := true }

/-- The browser delivers the close event of socket `c` to its `onclose`
handler (useWebSocket.js lines 51-66).  This happens both after a network
failure and after an explicit `close()` call on that socket. -/
def wsDeliverClose (c : Nat) (s : WSState) : WSState :=
  match s.chans.get? c with
  | none => s
  | some ch =>
    let s1 := { s with
      isConnected := false
      stepActive := false
      pendingClose := s.pendingClose.filter (fun i => i ≠ c) }
    match ch.capturedSimId with
    | some _ =>
      { s1 with reconnectPending := some (s1.now + reconnectDelayMs, ch.capturedSimId) }
    | none => s1

/-- `disconnect` (useWebSocket.js lines 96-112): explicit teardown. -/
def wsDisconnect (s : WSState) : WSState :=
  let s1 := { s with reconnectPending := none, stepActive := false }
  match s1.current with
  | some c =>
    { s1 with
      pendingClose := s1.pendingClose ++ [c]
      current := none
      isConnected := false }
  | none => s1

/-- Wall-clock time advances by `d` milliseconds. -/
def wsAdvanceTime (d : Nat) (s : WSState) : WSState := { s with now := s.now + d }

/-- A due reconnect timer fires: it invokes the `connect` closure captured
when the timeout was scheduled (useWebSocket.js lines 61-64). -/
def wsFireReconnect (s : WSState) : WSState :=
  match s.reconnectPending with
  | some (t, sid) =>
    if t ≤ s.now then
      wsConnectWith sid
        { s with reconnectPending := none, reconnectFires := s.reconnectFires + 1 }
    else s
  | none => s

/-- The hook's state right after mount with simulation id `id`, before
`connect` runs. -/
def wsInit (id : Nat) : WSState :=
  { now := 0, simId := some id, isConnected := false, current := none
    chans := [], pendingClose := [], reconnectPending := none
    stepActive := false, reconnectFires := 0 }

/-- The trace refuting the no-reconnect-after-teardown claim: mount with
id 1, connect, the socket opens, the user calls `disconnect()` (explicit
teardown), the browser then delivers the close event of the socket that
`disconnect` itself closed, and 2000 ms later the reconnect timer fires. -/
def c1Trace : WSState :=
  wsFireReconnect (wsAdvanceTime 2000
    (wsDeliverClose 0 (wsDisconnect (wsOnOpen (wsConnect (wsInit 1))))))

/-! ### Step-pacing interval (`useWebSocket.js` lines 71-94)

The effect at lines 77-94 re-runs whenever `isRunning` or `isConnected`
changes: it installs `setInterval(sendStep, 100)` when both are true and
clears the interval otherwise; `clearInterval` guarantees no tick callback
runs after it.  `sendStep` itself sends `{type:"step"}` only while the
socket is OPEN.  We model the React commit (state update followed by the
effect) as a state update followed by `syncStepEffect`, and an interval
tick as `intervalTick`. -/

/-- State relevant to the step-pacing interval. `sent` records the `type`
payloads of the step messages sent so far. -/
structure StepState where
  isRunning : Bool
  isConnected : Bool
  intervalActive : Bool
  wsOpen : Bool
  sent : List String
deriving DecidableEq, Repr

/-- The interval period hard-coded at useWebSocket.js line 81. -/
def stepPeriodMs : Nat := 100

/-- The effect body of useWebSocket.js lines 77-94: install the interval
when `isRunning && isConnected`, clear it otherwise. -/
def syncStepEffect (s : StepState) : StepState :=
  if s.isRunning && s.isConnected then { s with intervalActive := true }
  else { s with intervalActive := false }

/-- `setIsRunning b` followed by the React commit re-running the effect. -/
def setRunningFlag (b : Bool) (s : StepState) : StepState :=
  syncStepEffect { s with isRunning := b }

/-- `setIsConnected b` followed by the React commit re-running the effect;
the flag flips together with the socket actually being OPEN (it is set true
by `onopen` and false by `onerror`/`onclose`). -/
def setConnectedFlag (b : Bool) (s : StepState) : StepState :=
  syncStepEffect { s with isConnected := b, wsOpen := b }

/-- `sendStep` (useWebSocket.js lines 71-75). -/
def sendStepMsg (s : StepState) : StepState :=
  if s.wsOpen then { s with sent := s.sent ++ ["step"] } else s

/-- One firing of the interval callback, `stepPeriodMs` after the previous
one: it runs `sendStep` only if the interval is still installed
(`clearInterval` prevents a cleared tick from running). -/
def intervalTick (s : StepState) : StepState :=
  if s.intervalActive then sendStepMsg s else s

/-! ### Scene renderer (`SimulationCanvas.jsx`)

The component destructures `simulationState` with defaults
(`vehicles = []`, `traffic_lights = []`, `config = {}`,
`grid_width = 50`, `grid_height = 50`; lines 12-18), then in its draw
effect clears the whole canvas, paints the static background, and draws
every vehicle and every traffic light of the current snapshot (lines
20-160).  We embed the effect body as a pure function from the snapshot
(and the wall-clock time read by `Date.now()` for the yellow pulse) to the
ordered list of canvas operations it performs. -/

/-- A vehicle inside a snapshot (fields as destructured at line 71). -/
structure Vehicle where
  x : ℚ
  y : ℚ
  color : String
  speed : ℚ
  waiting_time : ℚ
deriving DecidableEq, Repr

/-- A traffic light inside a snapshot (fields as destructured at line 103). -/
structure TrafficLight where
  x : ℚ
  y : ℚ
  state : String
  direction : String
  queue_length : Int
deriving DecidableEq, Repr

/-- The snapshot's `config` object; each field may be absent. -/
structure GridConfig where
  grid_width : Option ℚ
  grid_height : Option ℚ
  algorithm : Option String
deriving DecidableEq, Repr

/-- The `simulationState` prop: a snapshot object any of whose fields may
be absent (the App initialises it to the empty object `{}`). -/
structure SimState where
  vehicles : Option (List Vehicle)
  traffic_lights : Option (List TrafficLight)
  config : Option GridConfig
  steps : Option Nat
deriving DecidableEq, Repr

/-- The destructuring default `vehicles = []` (line 13). -/
def effVehicles (s : SimState) : List Vehicle := s.vehicles.getD []

/-- The destructuring default `traffic_lights: trafficLights = []` (line 14). -/
def effLights (s : SimState) : List TrafficLight := s.traffic_lights.getD []

/-- The destructuring default `config = {}` (line 15). -/
def effConfig (s : SimState) : GridConfig :=
  s.config.getD { grid_width := none, grid_height := none, algorithm := none }

/-- The destructuring default `grid_width: gridWidth = 50` (line 18). -/
def effGridWidth (s : SimState) : ℚ := (effConfig s).grid_width.getD 50

/-- The destructuring default `grid_height: gridHeight = 50` (line 18). -/
def effGridHeight (s : SimState) : ℚ := (effConfig s).grid_height.getD 50

/-- The canvas bitmap width (`<canvas width={800}>`, line 190). -/
def canvasW : ℚ := 800

/-- The canvas bitmap height (`<canvas height={600}>`, line 191). -/
def canvasH : ℚ := 600

/-- Grid position to surface position (lines 73-74 and 105-106):
`((x / gridWidth) * surfaceWidth, (y / gridHeight) * surfaceHeight)`. -/
def toSurface (gw gh sw sh x y : ℚ) : ℚ × ℚ := ((x / gw) * sw, (y / gh) * sh)

/-- Surface click position back to grid coordinates (`handleCanvasClick`,
lines 169-170): `((cx / surfaceWidth) * gridWidth, (cy / surfaceHeight) * gridHeight)`. -/
def toGrid (gw gh sw sh cx cy : ℚ) : ℚ × ℚ := ((cx / sw) * gw, (cy / sh) * gh)

/-- `Math.max` on two (non-NaN) numbers: the larger argument. -/
def jsMax (a b : ℚ) : ℚ := if a < b then b else a

/-- `Math.min` on two (non-NaN) numbers: the smaller argument. -/
def jsMin (a b : ℚ) : ℚ := if a < b then a else b

/-- Vehicle marker radius, `Math.max(3, Math.min(8, speed * 2))` (line 76). -/
def markerSize (speed : ℚ) : ℚ := jsMax 3 (jsMin 8 (speed * 2))

/-- Vehicle opacity, `waitingTime > 0 ? 0.7 : 1` (line 78). -/
def vehicleOpacity (wt : ℚ) : ℚ := if 0 < wt then 7/10 else 1

/-- One canvas operation performed by the draw effect, in source order.
`yellowPulse` records the wall-clock time `t` at which the overlay is
painted; the painted alpha is the float `0.5 + 0.5*Math.sin(t/500)`
(line 136), which we keep symbolic in `t`. `speedText` and `queueText`
record the numeric value the code formats into the label. -/
inductive DrawOp where
  | clear
  | bgFill (color : String)
  | line (x1 y1 x2 y2 : ℚ) (color : String) (width : ℚ) (dashed : Bool)
  | rect (color : String) (x y w h : ℚ)
  | rectStroke (color : String) (x y w h lw : ℚ)
  | circle (color : String) (cx cy r alpha : ℚ)
  | circleStroke (color : String) (cx cy r lw alpha : ℚ)
  | speedText (speed : ℚ) (x y : ℚ) (alpha : ℚ)
  | yellowPulse (x y w h : ℚ) (t : Nat)
  | queueText (n : Int) (x y : ℚ)
deriving DecidableEq, Repr

/-- The operations drawn for one vehicle (lines 70-100): filled circle,
white outline, and — when `speed > 0` — the speed label, all under the
vehicle's `globalAlpha`. -/
def vehicleOps (gw gh : ℚ) (v : Vehicle) : List DrawOp :=
  let p := toSurface gw gh canvasW canvasH v.x v.y
  let size := markerSize v.speed
  let alpha := vehicleOpacity v.waiting_time
  [DrawOp.circle v.color p.1 p.2 size alpha,
   DrawOp.circleStroke "#fff" p.1 p.2 size 1 alpha]
  ++ (if 0 < v.speed then [DrawOp.speedText v.speed p.1 (p.2 + size + 10) alpha] else [])

/-- The `stateColors` lookup with its `|| '#666'` fallback (lines 108-117). -/
def stateColor (st : String) : String :=
  if st = "RED" then "#ff4444"
  else if st = "YELLOW" then "#ffaa00"
  else if st = "GREEN" then "#44ff44"
  else "#666"

/-- The operations drawn for one traffic light (lines 102-159): state-colored
rectangle oriented by `direction`, dark outline, the time-pulsing overlay
when the state is YELLOW, and a queue badge when `queueLength > 0`. -/
def lightOps (gw gh : ℚ) (t : Nat) (l : TrafficLight) : List DrawOp :=
  let p := toSurface gw gh canvasW canvasH l.x l.y
  let w : ℚ := if l.direction = "horizontal" then 20 else 8
  let h : ℚ := if l.direction = "horizontal" then 8 else 20
  [DrawOp.rect (stateColor l.state) (p.1 - w/2) (p.2 - h/2) w h,
   DrawOp.rectStroke "#333" (p.1 - w/2) (p.2 - h/2) w h 2]
  ++ (if l.state = "YELLOW" then
        [DrawOp.yellowPulse (p.1 - w/2 + 2) (p.2 - h/2 + 2) (w - 4) (h - 4) t]
      else [])
  ++ (if 0 < l.queue_length then
        [DrawOp.circle "rgba(255, 100, 100, 0.9)" p.1 (p.2 - 15) 10 1,
         DrawOp.queueText l.queue_length p.1 (p.2 - 15)]
      else [])

/-- The static background painted before any entity (lines 27-68): full
clear, background fill, solid center cross-axes, central junction square,
dashed guide lines. -/
def backgroundOps : List DrawOp :=
  [DrawOp.clear,
   DrawOp.bgFill "#2c3e50",
   DrawOp.line 0 (canvasH/2) canvasW (canvasH/2) "#34495e" 2 false,
   DrawOp.line (canvasW/2) 0 (canvasW/2) canvasH "#34495e" 2 false,
   DrawOp.rect "#7f8c8d" (canvasW/2 - 10) (canvasH/2 - 10) 20 20,
   DrawOp.line 0 (canvasH/2) canvasW (canvasH/2) "#ecf0f1" 1 true,
   DrawOp.line (canvasW/2) 0 (canvasW/2) canvasH "#ecf0f1" 1 true]

/-- The whole draw effect (lines 20-160) for snapshot `s` at wall-clock
time `t`: background, then every vehicle, then every traffic light. -/
def render (s : SimState) (t : Nat) : List DrawOp :=
  backgroundOps
  ++ (effVehicles s).flatMap (vehicleOps (effGridWidth s) (effGridHeight s))
  ++ (effLights s).flatMap (lightOps (effGridWidth s) (effGridHeight s) t)

/-- `render s t` with its leading `clear` peeled off (definitionally,
`render s t = DrawOp.clear :: renderTail s t`). -/
def renderTail (s : SimState) (t : Nat) : List DrawOp :=
  (backgroundOps.tail
    ++ (effVehicles s).flatMap (vehicleOps (effGridWidth s) (effGridHeight s)))
  ++ (effLights s).flatMap (lightOps (effGridWidth s) (effGridHeight s) t)

/-- The canvas surface is painted by applying draw operations in order;
`clearRect(0,0,width,height)` erases everything painted before it, so the
visible content of the surface after a sequence of operations is the suffix
painted since the last full clear. -/
def visibleOps (ops : List DrawOp) : List DrawOp :=
  ops.foldl (fun acc op => match op with | DrawOp.clear => [] | o => acc ++ [o]) []

/-- The alpha channel of an entity-painting operation, if it has one. -/
def drawAlpha : DrawOp → Option ℚ
  | DrawOp.circle _ _ _ _ a => some a
  | DrawOp.circleStroke _ _ _ _ _ a => some a
  | DrawOp.speedText _ _ _ a => some a
  | _ => none

/-! ## Theorems -/

/-- Claim C3: for every inbound channel message whose parsed `type` field
equals "ping" or "pong", the registered snapshot handler is not invoked;
every other well-formed inbound message is delivered to the handler exactly
once; in particular the 3-message stream `{type:ping}`, `{step:1}`,
`{type:pong}` results in exactly one snapshot delivery. -/
theorem claim_C3 :
    (∀ d : WsMsg, (d.type_ = some "ping" ∨ d.type_ = some "pong") →
      onmessageDeliver (Except.ok d) = none) ∧
    (∀ (msgs : List (Except Unit WsMsg)) (d : WsMsg),
      d.type_ ≠ some "ping" → d.type_ ≠ some "pong" →
      deliveries (msgs ++ [Except.ok d]) = deliveries msgs ++ [d]) ∧
    deliveries [Except.ok ⟨some "ping", none⟩, Except.ok ⟨none, some 1⟩,
      Except.ok ⟨some "pong", none⟩] = [⟨none, some 1⟩] := by
  refine ⟨?_, ?_, by decide⟩
  · intro d h
    simp [onmessageDeliver, h]
  · intro msgs d h1 h2
    simp [deliveries, List.filterMap_append, onmessageDeliver, h1, h2]

/-- Witness for C3 at concrete inputs: the ping message is filtered and the
typeless snapshot message is delivered (appended to the delivery stream). -/
theorem claim_C3_witness :
    onmessageDeliver (Except.ok ⟨some "ping", none⟩) = none ∧
    deliveries ([] ++ [Except.ok ⟨none, some 1⟩])
      = deliveries [] ++ [⟨none, some 1⟩] :=
  ⟨claim_C3.1 ⟨some "ping", none⟩ (Or.inl rfl),
   claim_C3.2.1 [] ⟨none, some 1⟩ (by decide) (by decide)⟩

/-- Claim C8: a message whose body fails to parse does not invoke the
snapshot handler (the exception is caught; `onmessageDeliver` is total and
returns `none`), the held snapshot is unchanged by it, and it stays the
displayed one until a valid message arrives, which replaces it. -/
theorem claim_C8 :
    onmessageDeliver (Except.error ()) = none ∧
    (∀ held : Option WsMsg, applyWsMessage held (Except.error ()) = held) ∧
    (∀ (held : Option WsMsg) (d : WsMsg),
      d.type_ ≠ some "ping" → d.type_ ≠ some "pong" →
      applyWsMessage held (Except.ok d) = some d) := by
  refine ⟨rfl, fun held => rfl, ?_⟩
  intro held d h1 h2
  simp [applyWsMessage, onmessageDeliver, h1, h2]

/-- Witness for C8: with a held snapshot present, a malformed frame leaves
it in place and a subsequent valid snapshot replaces it. -/
theorem claim_C8_witness :
    applyWsMessage (some ⟨none, some 0⟩) (Except.error ()) = some ⟨none, some 0⟩ ∧
    applyWsMessage (some ⟨none, some 0⟩) (Except.ok ⟨none, some 1⟩)
      = some ⟨none, some 1⟩ :=
  ⟨claim_C8.2.1 (some ⟨none, some 0⟩),
   claim_C8.2.2 (some ⟨none, some 0⟩) ⟨none, some 1⟩ (by decide) (by decide)⟩

/-- Claim C9: a manual advance with the channel Connected goes through the
channel's step signal and performs no Control Client call; with the channel
not Connected it performs the discrete advance-by-10 call followed by
exactly one snapshot fetch, whose result replaces the held state. -/
theorem claim_C9 :
    (∀ id : Nat, handleStep (some id) true true = [StepAction.wsSend "step"]) ∧
    (∀ (id : Nat) (w : Bool) (a : StepAction),
      a ∈ handleStep (some id) true w → isApiCall a = false) ∧
    (∀ (id : Nat) (w : Bool),
      handleStep (some id) false w
        = [StepAction.apiStepSimulation id 10, StepAction.apiGetState id] ∧
      ((handleStep (some id) false w).filter (fun a => isGetState a)).length = 1) ∧
    (∀ (held : Option WsMsg) (fetched : WsMsg),
      stepFallbackHeld held fetched = some fetched) := by
  refine ⟨fun id => rfl, ?_, fun id w => ⟨rfl, rfl⟩, fun held fetched => rfl⟩
  intro id w a ha
  cases w <;> simp [handleStep, sendStepAction] at ha
  subst ha
  rfl

/-- Witness for C9: the step signal sent while Connected is not a Control
Client call. -/
theorem claim_C9_witness :
    isApiCall (StepAction.wsSend "step") = false :=
  claim_C9.2.1 1 true (StepAction.wsSend "step") (by decide)

/-- Claim C1 (code bug): the claim asserts no reconnect ever fires after
explicit teardown.  In the code, `disconnect()` does clear any pending
reconnect timer, but it also calls `close()` on the open socket; the
socket's `onclose` handler then runs, sees its captured `simId` still set,
and schedules a fresh 2-second reconnect — which fires and opens a new
channel after the explicit teardown.  This theorem evaluates the model on
that trace: after `disconnect` no reconnect is pending; delivering the
close event of the socket that `disconnect` itself closed schedules one at
`now + 2000`; 2000 ms later it fires (`reconnectFires = 1`) and a new
socket (index 1) is installed. -/
theorem claim_C1_code_bug :
    (wsDisconnect (wsOnOpen (wsConnect (wsInit 1)))).reconnectPending = none ∧
    (wsDeliverClose 0 (wsDisconnect (wsOnOpen (wsConnect (wsInit 1))))).reconnectPending
      = some (2000, some 1) ∧
    c1Trace.reconnectFires = 1 ∧
    c1Trace.current = some 1 := by
  decide

/-- Claim C2: the advance-pacing interval has the fixed 100 ms period; a
tick while the flag was set true with the channel Connected (socket OPEN)
sends one `{type:"step"}` signal; after `setRunning(false)` a tick sends
nothing (the mid-schedule tick is cancelled); and in any state where the
effect has run (`intervalActive = isRunning && isConnected`), no signal at
all is sent while not Connected. -/
theorem claim_C2 :
    stepPeriodMs = 100 ∧
    (∀ s : StepState, s.isConnected = true → s.wsOpen = true →
      (intervalTick (setRunningFlag true s)).sent = s.sent ++ ["step"]) ∧
    (∀ s : StepState,
      (intervalTick (setRunningFlag false s)).sent = (setRunningFlag false s).sent) ∧
    (∀ s : StepState, s.intervalActive = (s.isRunning && s.isConnected) →
      s.isConnected = false → (intervalTick s).sent = s.sent) := by
  refine ⟨rfl, ?_, ?_, ?_⟩
  · intro s h1 h2
    simp [setRunningFlag, syncStepEffect, intervalTick, sendStepMsg, h1, h2]
  · intro s
    simp [setRunningFlag, syncStepEffect, intervalTick]
  · intro s h1 h2
    simp [intervalTick, h1, h2]

/-- Witness for C2: from a paused Connected state with an open socket, a
tick after `setRunning(true)` sends one step signal; in a running but
Disconnected state with the effect settled, a tick sends nothing. -/
theorem claim_C2_witness :
    (intervalTick (setRunningFlag true ⟨false, true, false, true, []⟩)).sent
      = ([] : List String) ++ ["step"] ∧
    (intervalTick ⟨true, false, false, true, []⟩).sent = ([] : List String) :=
  ⟨claim_C2.2.1 ⟨false, true, false, true, []⟩ rfl rfl,
   claim_C2.2.2.2 ⟨true, false, false, true, []⟩ rfl rfl⟩

/-- JS `Math.max` agrees with the order-theoretic `max`. -/
theorem jsMax_eq_max (a b : ℚ) : jsMax a b = max a b := by
  unfold jsMax
  rcases lt_or_le a b with h | h
  · rw [if_pos h, max_eq_right h.le]
  · rw [if_neg (not_lt.mpr h), max_eq_left h]

/-- JS `Math.min` agrees with the order-theoretic `min`. -/
theorem jsMin_eq_min (a b : ℚ) : jsMin a b = min a b := by
  unfold jsMin
  rcases lt_or_le a b with h | h
  · rw [if_pos h, min_eq_left h.le]
  · rw [if_neg (not_lt.mpr h), min_eq_right h]

/-- Painting any prefix and then a sequence that begins with a full clear
leaves visible exactly what the latter sequence paints. -/
theorem visibleOps_append_clear_cons (xs ys : List DrawOp) :
    visibleOps (xs ++ (DrawOp.clear :: ys)) = visibleOps (DrawOp.clear :: ys) := by
  unfold visibleOps
  rw [List.foldl_append]
  rfl

/-- Claim C4: the renderer's visible output after drawing snapshot `s` is a
function of `s` (and the wall clock read for the yellow pulse) alone —
whatever was painted before, including the draw operations of any earlier
snapshots, is fully cleared, so no residual entities persist. -/
theorem claim_C4 (prior : List DrawOp) (s : SimState) (t : Nat) :
    visibleOps (prior ++ render s t) = visibleOps (render s t) := by
  have hr : render s t = DrawOp.clear :: renderTail s t := rfl
  rw [hr]
  exact visibleOps_append_clear_cons prior (renderTail s t)

/-- Claim C5: grid-to-surface scaling and click-to-grid conversion are
mutually inverse linear maps (for positive grid and surface dimensions);
x = 25 on a width-50 grid lands at half the surface width; a click at the
surface midpoint of a 100×100 grid maps to (50, 50); and the drawn vehicle
position is exactly `toSurface` of the vehicle's own coordinates,
independent of the rest of the vehicle list. -/
theorem claim_C5 :
    (∀ gw gh sw sh x y : ℚ, gw ≠ 0 → gh ≠ 0 → sw ≠ 0 → sh ≠ 0 →
      toGrid gw gh sw sh (toSurface gw gh sw sh x y).1 (toSurface gw gh sw sh x y).2
        = (x, y)) ∧
    (∀ gw gh sw sh cx cy : ℚ, gw ≠ 0 → gh ≠ 0 → sw ≠ 0 → sh ≠ 0 →
      toSurface gw gh sw sh (toGrid gw gh sw sh cx cy).1 (toGrid gw gh sw sh cx cy).2
        = (cx, cy)) ∧
    (∀ gh sh sw y : ℚ, (toSurface 50 gh sw sh 25 y).1 = (1/2) * sw) ∧
    (∀ sw sh : ℚ, sw ≠ 0 → sh ≠ 0 →
      toGrid 100 100 sw sh (sw/2) (sh/2) = (50, 50)) ∧
    (∀ (gw gh : ℚ) (v : Vehicle) (rest : List Vehicle),
      ((v :: rest).flatMap (vehicleOps gw gh)).head?
        = some (DrawOp.circle v.color
            (toSurface gw gh canvasW canvasH v.x v.y).1
            (toSurface gw gh canvasW canvasH v.x v.y).2
            (markerSize v.speed) (vehicleOpacity v.waiting_time))) := by
  refine ⟨?_, ?_, ?_, ?_, fun gw gh v rest => rfl⟩
  · intro gw gh sw sh x y h1 h2 h3 h4
    simp only [toSurface, toGrid, Prod.mk.injEq]
    constructor
    · field_simp
      ring
    · field_simp
      ring
  · intro gw gh sw sh cx cy h1 h2 h3 h4
    simp only [toSurface, toGrid, Prod.mk.injEq]
    constructor
    · field_simp
      ring
    · field_simp
      ring
  · intro gh sh sw y
    show (25 : ℚ) / 50 * sw = (1/2) * sw
    norm_num
  · intro sw sh h1 h2
    simp only [toGrid, Prod.mk.injEq]
    constructor
    · field_simp
      ring
    · field_simp
      ring

/-- Witness for C5: on a 50×50 grid with an 800×600 surface, the grid point
(25, 10) round-trips through the surface, and the surface midpoint of a
100×100 grid clicks to (50, 50). -/
theorem claim_C5_witness :
    toGrid 50 50 800 600 (toSurface 50 50 800 600 25 10).1
      (toSurface 50 50 800 600 25 10).2 = (25, 10) ∧
    toGrid 100 100 800 600 (800/2) (600/2) = (50, 50) :=
  ⟨claim_C5.1 50 50 800 600 25 10 (by decide) (by decide) (by decide) (by decide),
   claim_C5.2.2.2.1 800 600 (by decide) (by decide)⟩

/-- Claim C6: the rendered marker radius is `clamp(speed*2, 3, 8)` (the
head draw operation of every vehicle carries radius `markerSize speed`),
the radius is monotone non-decreasing in speed, and speed 0, 2, 10 give
radii 3, 4, 8. -/
theorem claim_C6 :
    (∀ (gw gh : ℚ) (v : Vehicle),
      (vehicleOps gw gh v).head? = some (DrawOp.circle v.color
        (toSurface gw gh canvasW canvasH v.x v.y).1
        (toSurface gw gh canvasW canvasH v.x v.y).2
        (markerSize v.speed) (vehicleOpacity v.waiting_time))) ∧
    (∀ s1 s2 : ℚ, s1 ≤ s2 → markerSize s1 ≤ markerSize s2) ∧
    markerSize 0 = 3 ∧ markerSize 2 = 4 ∧ markerSize 10 = 8 := by
  refine ⟨fun gw gh v => rfl, ?_, ?_, ?_, ?_⟩
  · intro s1 s2 h
    unfold markerSize
    rw [jsMax_eq_max, jsMax_eq_max, jsMin_eq_min, jsMin_eq_min]
    exact max_le_max le_rfl (min_le_min le_rfl (by linarith))
  · norm_num [markerSize, jsMax, jsMin]
  · norm_num [markerSize, jsMax, jsMin]
  · norm_num [markerSize, jsMax, jsMin]

/-- Witness for C6: monotonicity applied at speeds 0 ≤ 2. -/
theorem claim_C6_witness : markerSize 0 ≤ markerSize 2 :=
  claim_C6.2.1 0 2 (by decide)

/-- Claim C7: of two vehicles identical in every attribute except
`waitingTime`, the waiting one (`waitingTime > 0`) is painted with alpha
0.7 and the non-waiting one (`waitingTime = 0`) with alpha 1. -/
theorem claim_C7 :
    ∀ (v1 v2 : Vehicle) (gw gh : ℚ),
      v1.x = v2.x → v1.y = v2.y → v1.color = v2.color → v1.speed = v2.speed →
      0 < v1.waiting_time → v2.waiting_time = 0 →
      (vehicleOps gw gh v1).head?.bind drawAlpha = some (7/10) ∧
      (vehicleOps gw gh v2).head?.bind drawAlpha = some 1 := by
  intro v1 v2 gw gh hx hy hc hs h1 h2
  constructor
  · simp [vehicleOps, drawAlpha, vehicleOpacity, h1]
  · simp [vehicleOps, drawAlpha, vehicleOpacity, h2]

/-- Witness for C7: two otherwise identical vehicles, one waiting 5 s and
one not waiting, painted at alpha 0.7 and alpha 1 respectively. -/
theorem claim_C7_witness :
    (vehicleOps 50 50 ⟨1, 2, "red", 3, 5⟩).head?.bind drawAlpha = some (7/10) ∧
    (vehicleOps 50 50 ⟨1, 2, "red", 3, 0⟩).head?.bind drawAlpha = some 1 :=
  claim_C7 ⟨1, 2, "red", 3, 5⟩ ⟨1, 2, "red", 3, 0⟩ 50 50 rfl rfl rfl rfl
    (by decide) rfl

/-- Claim C10: the renderer is total on snapshots lacking fields — a
missing `vehicles` becomes the empty list, a missing `traffic_lights`
becomes the empty list, a missing `config` (and a missing grid field inside
a present `config`) yields the default 50×50 grid, whose dimensions are
nonzero so no scale-factor division divides by zero; on the initial empty
state the effect paints exactly the static background. -/
theorem claim_C10 :
    (∀ s : SimState, s.vehicles = none → effVehicles s = []) ∧
    (∀ s : SimState, s.traffic_lights = none → effLights s = []) ∧
    (∀ s : SimState, s.config = none →
      effGridWidth s = 50 ∧ effGridHeight s = 50 ∧
      effGridWidth s ≠ 0 ∧ effGridHeight s ≠ 0) ∧
    (∀ (v : Option (List Vehicle)) (l : Option (List TrafficLight))
        (gh : Option ℚ) (alg : Option String) (st : Option Nat),
      effGridWidth ⟨v, l, some ⟨none, gh, alg⟩, st⟩ = 50) ∧
    (∀ t : Nat, render ⟨none, none, none, none⟩ t = backgroundOps) := by
  refine ⟨?_, ?_, ?_, fun v l gh alg st => rfl, fun t => rfl⟩
  · intro s h
    simp [effVehicles, h]
  · intro s h
    simp [effLights, h]
  · intro s h
    have hw : effGridWidth s = 50 := by simp [effGridWidth, effConfig, h]
    have hh : effGridHeight s = 50 := by simp [effGridHeight, effConfig, h]
    refine ⟨hw, hh, ?_, ?_⟩
    · rw [hw]; decide
    · rw [hh]; decide

/-- Witness for C10: the initial empty snapshot `{}` gets the empty entity
lists and the nonzero default 50×50 grid. -/
theorem claim_C10_witness :
    effVehicles ⟨none, none, none, none⟩ = [] ∧
    effLights ⟨none, none, none, none⟩ = [] ∧
    effGridWidth ⟨none, none, none, none⟩ = 50 ∧
    effGridWidth ⟨none, none, none, none⟩ ≠ 0 :=
  ⟨claim_C10.1 ⟨none, none, none, none⟩ rfl,
   claim_C10.2.1 ⟨none, none, none, none⟩ rfl,
   (claim_C10.2.2.1 ⟨none, none, none, none⟩ rfl).1,
   (claim_C10.2.2.1 ⟨none, none, none, none⟩ rfl).2.2.1⟩
